import Mathlib

/-
  Verification of the expr expression engine (github.com/jakub-gawlas/expr).

  Shallow embedding of:
  * the tree-walk evaluator (src/eval.go together with src/runtime.go),
  * the type-checker fragment used by the claims (src/type.go),
  * the VM runtime helpers (src/unnamed/part_003, package vm),
  * a compiler / VM dispatch fragment modelled from the spec (the compiler
    and the VM run loop are not part of the provided sources; the literal
    lowering follows the compiler tests in src/unnamed/part_000).

  Modelling conventions:
  * Go's `interface{}` values are the tagged union `Value` (spec section 3.5);
    the many Go integer widths are collapsed to a single mathematical integer
    tag, and float64 becomes `GoFloat`, rationals extended with the IEEE
    infinities and NaN (rounding is outside the model).
  * A `reflect.Value`, as used by the tree-walk evaluator, is `Option Value`:
    `none` is the invalid zero `reflect.Value` (the evaluator's `null`), and
    `some v` is a valid value wrapping `v`.  `reflect.ValueOf` of a nil
    interface yields the invalid value.  The kind of `some v` is the kind of
    `v`, with two special constructors: `Value.ifc v` marks a value whose
    static type is `interface{}` (kind Interface — what `MapIndex` and
    `Index` on `interface{}` containers return), and `Value.rv b` is a
    `reflect.Value` box stored as `interface{}` data (kind Struct — what the
    array/map literal evaluators store).  Boxes compare by allocation
    identity in Go; every flow here compares distinct boxings, so the model
    makes box comparisons false.
  * Panics and returned errors both surface as `Except.error` — `Run`
    recovers panics into errors, so the two are indistinguishable to callers.
    Error texts are kept where a claim depends on them; panic texts follow
    the Go runtime loosely.
  * Go maps are association lists updated with replacement; map lookup
    compares keys structurally (`Value.beq`, which also stands for
    `reflect.DeepEqual`; DeepEqual's order-independence on maps and Go's
    panic on uncomparable keys are below the model, and no claim needs them).
-/

/-- A Go float64: a rational, or one of the non-finite IEEE values. -/
inductive GoFloat where
  | finite (q : ℚ)
  | inf
  | negInf
  | nan
deriving DecidableEq

namespace GoFloat

/-- Go `==` on float64 (NaN is not equal to anything, including itself). -/
def beq : GoFloat → GoFloat → Bool
  | finite x, finite y => x == y
  | inf, inf => true
  | negInf, negInf => true
  | _, _ => false

/-- Go `<` on float64 (false whenever either side is NaN). -/
def lt : GoFloat → GoFloat → Bool
  | nan, _ => false
  | _, nan => false
  | finite x, finite y => x < y
  | finite _, inf => true
  | inf, finite _ => false
  | negInf, finite _ => true
  | finite _, negInf => false
  | negInf, inf => true
  | inf, negInf => false
  | inf, inf => false
  | negInf, negInf => false

/-- Go `<=` on float64. -/
def le (a b : GoFloat) : Bool := lt a b || beq a b

def neg : GoFloat → GoFloat
  | finite x => finite (-x)
  | inf => negInf
  | negInf => inf
  | nan => nan

def add : GoFloat → GoFloat → GoFloat
  | nan, _ => nan
  | _, nan => nan
  | finite x, finite y => finite (x + y)
  | inf, negInf => nan
  | negInf, inf => nan
  | inf, _ => inf
  | _, inf => inf
  | negInf, _ => negInf
  | _, negInf => negInf

def sub (a b : GoFloat) : GoFloat := add a (neg b)

def mul : GoFloat → GoFloat → GoFloat
  | nan, _ => nan
  | _, nan => nan
  | finite x, finite y => finite (x * y)
  | finite x, inf => if x = 0 then nan else if 0 < x then inf else negInf
  | finite x, negInf => if x = 0 then nan else if 0 < x then negInf else inf
  | inf, finite y => if y = 0 then nan else if 0 < y then inf else negInf
  | negInf, finite y => if y = 0 then nan else if 0 < y then negInf else inf
  | inf, inf => inf
  | inf, negInf => negInf
  | negInf, inf => negInf
  | negInf, negInf => inf

/-- Go `/` on float64.  Division by (the single modelled) zero produces an
infinity or NaN, never an error — IEEE semantics, no exception. -/
def div : GoFloat → GoFloat → GoFloat
  | nan, _ => nan
  | _, nan => nan
  | finite x, finite y =>
      if y = 0 then (if 0 < x then inf else if x < 0 then negInf else nan)
      else finite (x / y)
  | finite _, inf => finite 0
  | finite _, negInf => finite 0
  | inf, finite y => if y < 0 then negInf else inf
  | negInf, finite y => if y < 0 then inf else negInf
  | inf, inf => nan
  | inf, negInf => nan
  | negInf, inf => nan
  | negInf, negInf => nan

def ofInt (n : ℤ) : GoFloat := finite (n : ℚ)

/-- Go's conversion float64 → int64: truncation toward zero.  The conversion
of non-finite values is platform-defined in Go; the amd64 saturated results
are used here (no claim depends on them). -/
def toInt : GoFloat → ℤ
  | finite q => q.num.tdiv q.den
  | inf => 2 ^ 63 - 1
  | negInf => -(2 ^ 63)
  | nan => -(2 ^ 63)

/-- math.Pow, modelled on integer exponents only; fractional exponents fall
outside the rational model and are mapped to NaN (no claim exercises them). -/
def pow : GoFloat → GoFloat → GoFloat
  | finite x, finite y =>
      if y.den = 1 then
        (if x = 0 ∧ y.num < 0 then inf else finite (x ^ y.num))
      else nan
  | _, _ => nan

end GoFloat

/-- The runtime value universe (spec section 3.5): nil, bool, integer, float,
string, array, map.  Host-opaque values and callables are outside the
fragment the claims exercise.  Two constructors model the reflect layer of
src/eval.go faithfully:
* `rv b` is a `reflect.Value` box stored as `interface{}` data — exactly what
  `arrayNode.Eval`/`mapNode.Eval` (eval.go:386-412) append into their
  `[]interface{}`/`map[interface{}]interface{}` (the element/key/value `val`
  has static type `reflect.Value`, so the box, not its content, is stored);
  its kind is Struct.
* `ifc v` marks a value read through a static `interface{}` type (kind
  Interface): the results of `MapIndex`/`Index` on `interface{}`-typed
  containers.  It never occurs as stored `interface{}` content — storing a
  value through an interface strips it. -/
inductive Value where
  | nil
  | bool (b : Bool)
  | int (n : ℤ)
  | float (f : GoFloat)
  | str (s : String)
  | array (elems : List Value)
  | map (pairs : List (Value × Value))
  | rv (b : Option Value)
  | ifc (v : Value)

mutual

/-- Structural equality on values; stands for `reflect.DeepEqual` (and for
Go `==` where the code compares comparable values).  Values of different
tags are never equal; floats compare by Go float equality.  A `reflect.Value`
box (`rv`) compares by allocation identity in Go — its fields include an
`unsafe.Pointer` — and every comparison the evaluator performs pits distinct
boxings against each other, so box comparisons land in the catch-all `false`
(as does the `ifc` marker, which never occurs in stored content). -/
def Value.beq : Value → Value → Bool
  | .nil, .nil => true
  | .bool a, .bool b => a == b
  | .int a, .int b => a == b
  | .float a, .float b => GoFloat.beq a b
  | .str a, .str b => a == b
  | .array xs, .array ys => Value.beqList xs ys
  | .map xs, .map ys => Value.beqPairs xs ys
  | _, _ => false

def Value.beqList : List Value → List Value → Bool
  | [], [] => true
  | x :: xs, y :: ys => Value.beq x y && Value.beqList xs ys
  | _, _ => false

def Value.beqPairs : List (Value × Value) → List (Value × Value) → Bool
  | [], [] => true
  | (k, v) :: xs, (l, w) :: ys =>
      Value.beq k l && Value.beq v w && Value.beqPairs xs ys
  | _, _ => false

end

/-- Lookup in a (modelled) Go map: first pair whose key equals `k`. -/
def lookupV (k : Value) : List (Value × Value) → Option Value
  | [] => none
  | (a, v) :: rest => if Value.beq a k then some v else lookupV k rest

/-- Go map assignment `m[k] = v`: replace the entry under `k`, or append. -/
def mapSet : List (Value × Value) → Value → Value → List (Value × Value)
  | [], k, v => [(k, v)]
  | (a, w) :: rest, k, v =>
      if Value.beq a k then (a, v) :: rest else (a, w) :: mapSet rest k v

/-- Fallible computations: Go's `(T, error)` returns and recovered panics. -/
abbrev Res (α : Type) : Type := Except String α

/-- The AST (src/eval.go node kinds; the parser is outside the sources).
`matches`, method/function calls and the `len` builtin are outside the
fragment the claims exercise. -/
inductive Node where
  | nil
  | bool (b : Bool)
  | number (q : ℚ)
  | text (s : String)
  | identifier (s : String)
  | name (s : String)
  | unary (op : String) (node : Node)
  | binary (op : String) (left right : Node)
  | property (node : Node) (prop : String)
  | index (node : Node) (idx : Node)
  | conditional (cond exp1 exp2 : Node)
  | array (nodes : List Node)
  | mapLit (pairs : List (Node × Node))

/-- Modelled from the spec: the parser package (absent from the sources)
carries the `String()` printers used in error messages; a name node prints
as the name itself, which is all the messages in scope depend on. -/
def nodeToString : Node → String
  | .name s => s
  | .identifier s => s
  | .text s => s
  | _ => "expr"

namespace Expr

/-- A `reflect.Value`: `none` is the invalid zero value (`null` in eval.go),
`some v` a valid value wrapping `v`. -/
abbrev RV : Type := Option Value

/-- eval.go: `var null = reflect.ValueOf(nil)` — the invalid value. -/
def null : RV := none

/-- `reflect.ValueOf` on an interface value: nil gives the invalid value. -/
def valueOf : Value → RV
  | .nil => none
  | v => some v

/-- `reflect.Value.Interface`: panics on the invalid value; unwraps the
static `interface{}` type of an interface-kind value, otherwise returns the
content. -/
def interfaceOf : RV → Res Value
  | none => .error "reflect: call of reflect.Value.Interface on zero Value"
  | some (.ifc v) => .ok v
  | some v => .ok v

/-- runtime.go `toBool`: the value must have bool kind, anything else panics. -/
def toBool (n : Node) : RV → Res Bool
  | some (.bool b) => .ok b
  | _ => .error ("cannot convert " ++ nodeToString n ++ " to type bool")

/-- runtime.go `toText`: the value must have string kind. -/
def toText (n : Node) : RV → Res String
  | some (.str s) => .ok s
  | _ => .error ("cannot convert " ++ nodeToString n ++ " to type string")

/-- runtime.go `cast`: floats are returned, integer kinds are widened to
float64; everything else (including the invalid value) fails. -/
def cast : RV → Option GoFloat
  | some (.float f) => some f
  | some (.int n) => some (.ofInt n)
  | _ => none

/-- runtime.go `toNumber`: `cast` or panic. -/
def toNumber (n : Node) (v : RV) : Res GoFloat :=
  match Expr.cast v with
  | some f => .ok f
  | none => .error ("cannot convert " ++ nodeToString n ++ " to type float64")

/-- runtime.go `isNumber`: `v.Type().Kind() == reflect.Float64`.
`Type()` panics on the invalid value (unlike `Kind()`, which the sibling
helpers use) — so a nil operand makes this helper panic. -/
def isNumber : RV → Res Bool
  | none => .error "reflect: call of reflect.Value.Type on zero Value"
  | some (.float _) => .ok true
  | some _ => .ok false

/-- runtime.go `canBeNumber`: `isNumberType(v.Type())` — any numeric kind;
`Type()` panics on the invalid value. -/
def canBeNumber : RV → Res Bool
  | none => .error "reflect: call of reflect.Value.Type on zero Value"
  | some (.float _) => .ok true
  | some (.int _) => .ok true
  | some _ => .ok false

/-- `reflect.DeepEqual(left.Interface(), right.Interface())` — the default
branch of runtime.go `equal`; `Interface()` panics on invalid values. -/
def deepEqualIface (l r : RV) : Res Bool :=
  match interfaceOf l with
  | .error e => .error e
  | .ok li =>
    match interfaceOf r with
    | .error e => .error e
    | .ok ri => .ok (Value.beq li ri)

/-- The float wrapped by a value known to satisfy `isNumber`. -/
def floatOf : RV → GoFloat
  | some (.float f) => f
  | _ => .nan

/-- runtime.go `equal`: a float64 side cross-compares with any numeric other
side after `cast`; otherwise `reflect.DeepEqual` of the two interfaces.
The branch order and Go's `&&` short-circuiting are kept, so the panics of
`isNumber`/`canBeNumber`/`Interface` on invalid (nil) operands fire exactly
where they do in the source. -/
def equal (left right : RV) : Res Bool :=
  match isNumber left with
  | .error e => .error e
  | .ok true =>
    match canBeNumber right with
    | .error e => .error e
    | .ok true => .ok (GoFloat.beq (floatOf left) ((Expr.cast right).getD (.finite 0)))
    | .ok false => deepEqualIface left right
  | .ok false =>
    match canBeNumber left with
    | .error e => .error e
    | .ok true =>
      match isNumber right with
      | .error e => .error e
      | .ok true => .ok (GoFloat.beq ((Expr.cast left).getD (.finite 0)) (floatOf right))
      | .ok false => deepEqualIface left right
    | .ok false => deepEqualIface left right

/-- runtime.go `extract`.  Switches on the kind of `v`:
* array/slice index: a non-castable index `break`s to `(null, false)`, an
  out-of-range index makes `Index` panic; the element of an `[]interface{}`
  container comes back interface-kind;
* string index: the byte, as a concrete uint8;
* map lookup: `v.MapIndex(i)` uses the content of `i` as the key (no
  re-wrap) and always reports found — a missing key yields the invalid
  value, a found entry comes back interface-kind; an invalid key makes
  `MapIndex` panic;
* struct: `FieldByName` — the only Struct-kind values in the model are
  `reflect.Value` boxes, which expose no matching field, so the zero value
  is reported found;
* interface kind: unwrap and re-extract `reflect.ValueOf(v.Interface())` —
  a nil content re-wraps to the invalid value;
* kinds without a case (and the invalid value) yield `(null, false)`.
Pointer hosts are outside the value model.  The dispatch on a valid value is
the separate `extractV`, so that the Interface-case recursion is structural
(`extract(reflect.ValueOf(v.Interface()), i)` re-enters the same switch on
the unwrapped content; a nil content re-wraps to the invalid value, whose
kind has no case). -/
def extractV : Value → RV → Res (RV × Bool)
  | .array xs, i =>
    (match Expr.cast i with
     | none => .ok (none, false)
     | some f =>
       let n := f.toInt
       if h : 0 ≤ n ∧ n.toNat < xs.length then
         .ok (some (.ifc (xs.get ⟨n.toNat, h.2⟩)), true)
       else .error "reflect: array index out of range")
  | .str s, i =>
    (match Expr.cast i with
     | none => .ok (none, false)
     | some f =>
       let n := f.toInt
       let bs := s.toUTF8.toList
       if h : 0 ≤ n ∧ n.toNat < bs.length then
         .ok (some (.int ((bs.get ⟨n.toNat, h.2⟩).toNat : ℤ)), true)
       else .error "reflect: string index out of range")
  | .map ps, i =>
    (match i with
     | none => .error "reflect: call of reflect.Value.MapIndex on zero Value key"
     | some (.ifc k) => .ok ((lookupV k ps).map Value.ifc, true)
     | some k => .ok ((lookupV k ps).map Value.ifc, true))
  | .rv _, _ => .ok (none, true)
  | .ifc .nil, _ => .ok (none, false)
  | .ifc w, i => extractV w i
  | _, _ => .ok (none, false)

/-- runtime.go `extract` (see `extractV` for the kind dispatch): the invalid
value has no case and yields `(null, false)`. -/
def extract (v i : RV) : Res (RV × Bool) :=
  match v with
  | none => .ok (none, false)
  | some w => extractV w i

/-- runtime.go `isNil`: `!v.IsValid() || v.IsNil()`.  `IsNil` is defined for
interface/slice/map kinds and panics on non-nilable kinds; nil-ness of a Go
slice or map value is below the model (the literal constructors never build
nil ones). -/
def isNil : RV → Res Bool
  | none => .ok true
  | some .nil => .ok true
  | some (.ifc .nil) => .ok true
  | some (.ifc _) => .ok false
  | some (.array _) => .ok false
  | some (.map _) => .ok false
  | some _ => .error "reflect: call of reflect.Value.IsNil on non-nilable Value"

/-- The element loop of runtime.go `contains` for arrays/slices: the
container models `[]interface{}`, so `array.Index(i)` yields an
interface-kind element. -/
def containsList (needle : RV) : List Value → Res Bool
  | [] => .ok false
  | x :: rest =>
    match Expr.equal (some (.ifc x)) needle with
    | .error e => .error e
    | .ok true => .ok true
    | .ok false => containsList needle rest

/-- runtime.go `contains`.  `array.Interface()` is evaluated first and panics
on the invalid value; a nil content skips the switch and returns false.
Otherwise the switch is on `array.Kind()` — the kind of the wrapper:
* Array/Slice: scan with `equal`;
* Map: `n := reflect.ValueOf(needle)` re-wraps the already-reflected needle,
  so `n` is a (always valid — the `!n.IsValid()` error is dead code)
  Struct-kind value whose content is the `reflect.Value` box of the needle,
  and `MapIndex(n)` looks up that box as the key;
* Struct: requires `reflect.ValueOf(needle)` to have String kind, but it has
  Struct kind (the box), so this is always the "cannot use as field name"
  error — and the only Struct-kind containers in the model are boxes anyway;
* Interface (an environment-fetched container) has no case and falls to the
  `operator "in" not defined` error.  Pointer containers are outside the
  value model. -/
def contains (needle array : RV) : Res Bool :=
  match interfaceOf array with
  | .error e => .error e
  | .ok ai =>
    match ai with
    | .nil => .ok false
    | _ =>
      match array with
      | some (.array xs) => containsList needle xs
      | some (.map ps) => .ok (lookupV (.rv needle) ps).isSome
      | some (.rv _) => .error "cannot use reflect.Value as field name"
      | _ => .error "operator \"in\" not defined"

/-- eval.go `makeRange`: sizes over 10^6 are an error; a negative size makes
Go's `make` panic; otherwise the array of float64 values `min..max`. -/
def makeRange (min max : ℤ) : Res RV :=
  let size := max - min + 1
  if size > 1000000 then
    .error ("range " ++ toString min ++ ".." ++ toString max ++ " exceeded max size of 1e6")
  else if size < 0 then
    .error "makeslice: len out of range"
  else
    .ok (some (.array ((List.range size.toNat).map (fun i => .float (.ofInt (min + (i : ℤ)))))))

end Expr

namespace Expr

mutual

/-- The tree-walk evaluator: the `Eval` methods of src/eval.go, one match arm
per node kind.  The environment is a host value; names are resolved with
`extract(reflect.ValueOf(env), reflect.ValueOf(name))`.  Binary `or`/`and`
short-circuit before the right operand is evaluated; every other binary
operator evaluates both sides first.  The numeric ladder casts both operands
with `toNumber` and then dispatches. -/
def evalNode : Node → Value → Res RV
  | .nil, _ => .ok null
  | .bool b, _ => .ok (some (.bool b))
  | .number q, _ => .ok (some (.float (.finite q)))
  | .text s, _ => .ok (some (.str s))
  | .identifier s, _ => .ok (some (.str s))
  | .name s, env =>
    match extract (valueOf env) (some (.str s)) with
    | .error e => .error e
    | .ok (v, true) => .ok v
    | .ok (_, false) => .error ("undefined: " ++ s)
  | .unary op node, env =>
    match evalNode node env with
    | .error e => .error e
    | .ok val =>
      match op with
      | "not" | "!" =>
        (match toBool node val with
         | .error e => .error e
         | .ok b => .ok (some (.bool (!b))))
      | _ =>
        match toNumber node val with
        | .error e => .error e
        | .ok v =>
          match op with
          | "-" => .ok (some (.float v.neg))
          | "+" => .ok (some (.float v))
          | _ => .error ("implement unary " ++ op ++ " operator")
  | .binary op l r, env =>
    match evalNode l env with
    | .error e => .error e
    | .ok left =>
      match op with
      | "or" | "||" =>
        (match toBool l left with
         | .error e => .error e
         | .ok true => .ok (some (.bool true))
         | .ok false =>
           match evalNode r env with
           | .error e => .error e
           | .ok right =>
             match toBool r right with
             | .error e => .error e
             | .ok rb => .ok (some (.bool rb)))
      | "and" | "&&" =>
        (match toBool l left with
         | .error e => .error e
         | .ok true =>
           (match evalNode r env with
            | .error e => .error e
            | .ok right =>
              match toBool r right with
              | .error e => .error e
              | .ok rb => .ok (some (.bool rb)))
         | .ok false => .ok (some (.bool false)))
      | _ =>
        match evalNode r env with
        | .error e => .error e
        | .ok right =>
          match op with
          | "==" =>
            (match Expr.equal left right with
             | .error e => .error e
             | .ok b => .ok (some (.bool b)))
          | "!=" =>
            (match Expr.equal left right with
             | .error e => .error e
             | .ok b => .ok (some (.bool (!b))))
          | "in" =>
            (match contains left right with
             | .error e => .error e
             | .ok b => .ok (some (.bool b)))
          | "not in" =>
            (match contains left right with
             | .error e => .error e
             | .ok b => .ok (some (.bool (!b))))
          | "~" =>
            (match toText l left with
             | .error e => .error e
             | .ok a =>
               match toText r right with
               | .error e => .error e
               | .ok b => .ok (some (.str (a ++ b))))
          | _ =>
            match toNumber l left with
            | .error e => .error e
            | .ok lf =>
              match toNumber r right with
              | .error e => .error e
              | .ok rf =>
                match op with
                | "|" => .ok (some (.int (Int.lor lf.toInt rf.toInt)))
                | "^" => .ok (some (.int (Int.xor lf.toInt rf.toInt)))
                | "&" => .ok (some (.int (Int.land lf.toInt rf.toInt)))
                | "<" => .ok (some (.bool (GoFloat.lt lf rf)))
                | ">" => .ok (some (.bool (GoFloat.lt rf lf)))
                | ">=" => .ok (some (.bool (GoFloat.le rf lf)))
                | "<=" => .ok (some (.bool (GoFloat.le lf rf)))
                | "+" => .ok (some (.float (GoFloat.add lf rf)))
                | "-" => .ok (some (.float (GoFloat.sub lf rf)))
                | "*" => .ok (some (.float (GoFloat.mul lf rf)))
                | "/" =>
                  if GoFloat.beq rf (.finite 0) then .error "division by zero"
                  else .ok (some (.float (GoFloat.div lf rf)))
                | "%" =>
                  if rf.toInt = 0 then .error "division by zero"
                  else .ok (some (.float (.ofInt (Int.tmod lf.toInt rf.toInt))))
                | "**" => .ok (some (.float (GoFloat.pow lf rf)))
                | ".." => makeRange lf.toInt rf.toInt
                | _ => .error ("implement " ++ op ++ " operator")
  | .property node prop, env =>
    match evalNode node env with
    | .error e => .error e
    | .ok v =>
      match extract v (some (.str prop)) with
      | .error e => .error e
      | .ok (p, true) => .ok p
      | .ok (_, false) =>
        match isNil v with
        | .error e => .error e
        | .ok true => .error (nodeToString node ++ " is nil")
        | .ok false =>
            .error (nodeToString node ++ "." ++ prop
              ++ " undefined (type has no field " ++ prop ++ ")")
  | .index node idx, env =>
    match evalNode node env with
    | .error e => .error e
    | .ok v =>
      match evalNode idx env with
      | .error e => .error e
      | .ok i =>
        match extract v i with
        | .error e => .error e
        | .ok (p, true) => .ok p
        | .ok (_, false) => .error ("cannot get " ++ nodeToString idx ++ " from " ++ nodeToString node)
  | .conditional c t e, env =>
    match evalNode c env with
    | .error e => .error e
    | .ok cond =>
      match toBool c cond with
      | .error e => .error e
      | .ok true => evalNode t env
      | .ok false => evalNode e env
  | .array ns, env =>
    match evalList ns env with
    | .error e => .error e
    | .ok vs => .ok (some (.array vs))
  | .mapLit ps, env =>
    match evalPairs ps env [] with
    | .error e => .error e
    | .ok m => .ok (some (.map m))

/-- The element loop of `arrayNode.Eval` (eval.go:386-396): `val` has static
type `reflect.Value`, so `append(array, val)` stores the box itself into the
`[]interface{}` — the element is `Value.rv val`, not its content. -/
def evalList : List Node → Value → Res (List Value)
  | [], _ => .ok []
  | n :: rest, env =>
    match evalNode n env with
    | .error e => .error e
    | .ok v =>
      match evalList rest env with
      | .error e => .error e
      | .ok vs => .ok (Value.rv v :: vs)

/-- The pair loop of `mapNode.Eval` (eval.go:398-412): `m[key] = value`
stores the `reflect.Value` boxes as both key and value.  Box keys compare by
identity (never equal across boxings), so each literal pair lands in its own
entry. -/
def evalPairs : List (Node × Node) → Value → List (Value × Value) → Res (List (Value × Value))
  | [], _, acc => .ok acc
  | (kn, vn) :: rest, env, acc =>
    match evalNode kn env with
    | .error e => .error e
    | .ok k =>
      match evalNode vn env with
      | .error e => .error e
      | .ok v => evalPairs rest env (mapSet acc (Value.rv k) (Value.rv v))

end

/-- eval.go `Run`: evaluate, recover panics into errors, and unwrap the
resulting `reflect.Value` — a valid value yields its interface content
(`v.Interface()`, which strips an interface-kind wrapper), the invalid value
yields nil. -/
def Run (node : Node) (env : Value) : Res Value :=
  match evalNode node env with
  | .error e => .error e
  | .ok (some (.ifc v)) => .ok v
  | .ok (some v) => .ok v
  | .ok none => .ok .nil

end Expr

namespace Expr

/-- Semantic types of src/type.go for the modelled fragment.  `numberType`
is float64; array and map are the checker's `[]interface{}` and
`map[interface{}]interface{}`; struct, func and pointer types are outside
the fragment. -/
inductive Ty where
  | bool
  | number
  | text
  | array
  | map
  | interface
deriving DecidableEq

/-- A `reflect.Type` is nullable: `none` is the nil type of the nil literal. -/
abbrev TyR : Type := Option Ty

def isNumberType : TyR → Bool
  | some .number => true
  | _ => false

def isBoolType : TyR → Bool
  | some .bool => true
  | _ => false

def isStringType : TyR → Bool
  | some .text => true
  | _ => false

def isInterfaceType : TyR → Bool
  | some .interface => true
  | _ => false

def isArrayType : TyR → Bool
  | some .array => true
  | _ => false

def isMapType : TyR → Bool
  | some .map => true
  | _ => false

/-- type.go `isStructType`: no struct types occur in the modelled fragment. -/
def isStructType : TyR → Bool
  | _ => false

/-- type.go `isComparable`: nil compares with anything; numbers with
numbers; interface with anything; equal types with each other. -/
def isComparable (l r : TyR) : Bool :=
  l.isNone || r.isNone || (isNumberType l && isNumberType r)
    || isInterfaceType l || isInterfaceType r || l == r

/-- type.go `fieldType` for the fragment: interfaces stay interface, a map's
element type is interface. -/
def fieldType : TyR → Option TyR
  | some .interface => some (some .interface)
  | some .map => some (some .interface)
  | _ => none

/-- type.go `indexType` for the fragment. -/
def indexType : TyR → Option TyR
  | some .interface => some (some .interface)
  | some .map => some (some .interface)
  | some .array => some (some .interface)
  | _ => none

mutual

/-- The `Type` methods of src/type.go for the modelled fragment: bottom-up
type assignment against a types table.  The node-rewriting of generated
nodes and struct/func rules are outside the fragment. -/
def typeNode : Node → List (String × TyR) → Res TyR
  | .nil, _ => .ok none
  | .identifier _, _ => .ok (some .text)
  | .number _, _ => .ok (some .number)
  | .bool _, _ => .ok (some .bool)
  | .text _, _ => .ok (some .text)
  | .name s, table =>
    match table.lookup s with
    | some t => .ok t
    | none => .error ("unknown name " ++ s)
  | .unary op n, table =>
    match typeNode n table with
    | .error e => .error e
    | .ok ntype =>
      match op with
      | "!" | "not" =>
        if isBoolType ntype || isInterfaceType ntype then .ok (some .bool)
        else .error "invalid operation: mismatched type"
      | _ => .ok (some .interface)
  | .binary op l r, table =>
    match typeNode l table with
    | .error e => .error e
    | .ok ltype =>
      match typeNode r table with
      | .error e => .error e
      | .ok rtype =>
        match op with
        | "==" | "!=" =>
          if isComparable ltype rtype then .ok (some .bool)
          else .error "invalid operation: mismatched types"
        | "or" | "||" | "and" | "&&" =>
          if (isBoolType ltype || isInterfaceType ltype)
              && (isBoolType rtype || isInterfaceType rtype) then .ok (some .bool)
          else .error "invalid operation: mismatched types"
        | "in" | "not in" =>
          if (isStringType ltype || isInterfaceType ltype)
              && (isStructType rtype || isInterfaceType rtype) then .ok (some .bool)
          else if isArrayType rtype || isMapType rtype || isInterfaceType rtype then
            .ok (some .bool)
          else .error "invalid operation: mismatched types"
        | "<" | ">" | ">=" | "<=" =>
          if (isNumberType ltype || isInterfaceType ltype)
              && (isNumberType rtype || isInterfaceType rtype) then .ok (some .bool)
          else .error "invalid operation: mismatched types"
        | "/" | "+" | "-" | "*" | "**" | "|" | "^" | "&" | "%" =>
          if (isNumberType ltype || isInterfaceType ltype)
              && (isNumberType rtype || isInterfaceType rtype) then .ok (some .number)
          else .error "invalid operation: mismatched types"
        | ".." =>
          if (isNumberType ltype || isInterfaceType ltype)
              && (isNumberType rtype || isInterfaceType rtype) then .ok (some .array)
          else .error "invalid operation: mismatched types"
        | "~" =>
          if (isStringType ltype || isInterfaceType ltype)
              && (isStringType rtype || isInterfaceType rtype) then .ok (some .text)
          else .error "invalid operation: mismatched types"
        | _ => .ok (some .interface)
  | .property n prop, table =>
    match typeNode n table with
    | .error e => .error e
    | .ok ntype =>
      match fieldType ntype with
      | some t => .ok t
      | none => .error (nodeToString n ++ "." ++ prop ++ " undefined (no field " ++ prop ++ ")")
  | .index n i, table =>
    match typeNode n table with
    | .error e => .error e
    | .ok ntype =>
      match typeNode i table with
      | .error e => .error e
      | .ok _ =>
        match indexType ntype with
        | some t => .ok t
        | none => .error "invalid operation: type does not support indexing"
  | .conditional c t e, table =>
    match typeNode c table with
    | .error e => .error e
    | .ok ctype =>
      if !isBoolType ctype && !isInterfaceType ctype then
        .error "non-bool used as condition"
      else
        match typeNode t table with
        | .error e => .error e
        | .ok t1 =>
          match typeNode e table with
          | .error e => .error e
          | .ok t2 =>
            match t1, t2 with
            | none, some t2v => .ok (some t2v)
            | some t1v, none => .ok (some t1v)
            | none, none => .ok none
            | some t1v, some t2v =>
              if t1v = t2v ∨ t2v = .interface then .ok (some t1v)
              else .ok (some .interface)
  | .array ns, table =>
    match typeList ns table with
    | .error e => .error e
    | .ok _ => .ok (some .array)
  | .mapLit ps, table =>
    match typePairs ps table with
    | .error e => .error e
    | .ok _ => .ok (some .map)

def typeList : List Node → List (String × TyR) → Res Unit
  | [], _ => .ok ()
  | n :: rest, table =>
    match typeNode n table with
    | .error e => .error e
    | .ok _ => typeList rest table

def typePairs : List (Node × Node) → List (String × TyR) → Res Unit
  | [], _ => .ok ()
  | (k, v) :: rest, table =>
    match typeNode k table with
    | .error e => .error e
    | .ok _ =>
      match typeNode v table with
      | .error e => .error e
      | .ok _ => typePairs rest table

end

end Expr

namespace VM

/-- part_003 `equal`: a type switch on the first operand; the matching case
type-asserts the second operand to the same type (a mismatch — including a
nil right operand — is a type-assertion panic); values without a case
(nil, bool, arrays, maps) fall to `reflect.DeepEqual`. -/
def equal : Value → Value → Res Bool
  | .float x, b =>
    (match b with
     | .float y => .ok (GoFloat.beq x y)
     | _ => .error "interface conversion: interface is not float64")
  | .int x, b =>
    (match b with
     | .int y => .ok (x == y)
     | _ => .error "interface conversion: interface is not int")
  | .str x, b =>
    (match b with
     | .str y => .ok (x == y)
     | _ => .error "interface conversion: interface is not string")
  | a, b => .ok (Value.beq a b)

/-- part_003 `add`: float, integer or string addition of same-typed
operands; anything else panics. -/
def add : Value → Value → Res Value
  | .float x, b =>
    (match b with
     | .float y => .ok (.float (x.add y))
     | _ => .error "interface conversion: interface is not float64")
  | .int x, b =>
    (match b with
     | .int y => .ok (.int (x + y))
     | _ => .error "interface conversion: interface is not int")
  | .str x, b =>
    (match b with
     | .str y => .ok (.str (x ++ y))
     | _ => .error "interface conversion: interface is not string")
  | _, _ => .error "invalid operation: +"

/-- part_003 `subtract`. -/
def subtract : Value → Value → Res Value
  | .float x, b =>
    (match b with
     | .float y => .ok (.float (x.sub y))
     | _ => .error "interface conversion: interface is not float64")
  | .int x, b =>
    (match b with
     | .int y => .ok (.int (x - y))
     | _ => .error "interface conversion: interface is not int")
  | _, _ => .error "invalid operation: -"

/-- part_003 `multiply`. -/
def multiply : Value → Value → Res Value
  | .float x, b =>
    (match b with
     | .float y => .ok (.float (x.mul y))
     | _ => .error "interface conversion: interface is not float64")
  | .int x, b =>
    (match b with
     | .int y => .ok (.int (x * y))
     | _ => .error "interface conversion: interface is not int")
  | _, _ => .error "invalid operation: *"

/-- part_003 `divide`: float division is plain IEEE division — there is no
zero check, so a zero denominator yields an infinity or NaN without error;
integer division by zero is the Go runtime panic; mixed or non-numeric
operands panic. -/
def divide : Value → Value → Res Value
  | .float x, b =>
    (match b with
     | .float y => .ok (.float (x.div y))
     | _ => .error "interface conversion: interface is not float64")
  | .int x, b =>
    (match b with
     | .int y =>
       if y = 0 then .error "runtime error: integer divide by zero"
       else .ok (.int (Int.tdiv x y))
     | _ => .error "interface conversion: interface is not int")
  | _, _ => .error "invalid operation: /"

/-- part_003 `modulo`: defined on integer operands only; a float operand has
no case and panics ("invalid operation"); integer modulo by zero is the Go
runtime panic. -/
def modulo : Value → Value → Res Value
  | .int x, b =>
    (match b with
     | .int y =>
       if y = 0 then .error "runtime error: integer divide by zero"
       else .ok (.int (Int.tmod x y))
     | _ => .error "interface conversion: interface is not int")
  | _, _ => .error "invalid operation: % on non-integer"

/-- part_003 `toFloat64`. -/
def toFloat64 : Value → Res GoFloat
  | .float f => .ok f
  | .int n => .ok (.ofInt n)
  | _ => .error "invalid operation: float64 conversion"

/-- part_003 `toInt`: floats are truncated, integers passed through. -/
def toInt : Value → Res ℤ
  | .float f => .ok f.toInt
  | .int n => .ok n
  | _ => .error "invalid operation: int conversion"

/-- part_003 `exponent`: `math.Pow(toFloat64(a), toFloat64(b))`. -/
def exponent (a b : Value) : Res Value :=
  match toFloat64 a with
  | .error e => .error e
  | .ok x =>
    match toFloat64 b with
    | .error e => .error e
    | .ok y => .ok (.float (x.pow y))

/-- part_003 `makeRange`: both endpoints through `toInt`, then the integer
array of size `max - min + 1` is built unconditionally — there is no
10^6 cap; a negative size makes Go's `make` panic. -/
def makeRange (a b : Value) : Res Value :=
  match toInt a with
  | .error e => .error e
  | .ok min =>
    match toInt b with
    | .error e => .error e
    | .ok max =>
      let size := max - min + 1
      if size < 0 then .error "runtime error: makeslice: len out of range"
      else .ok (.array ((List.range size.toNat).map (fun i => .int (min + (i : ℤ)))))

/-- The element loop of part_003 `in` for arrays/slices. -/
def isInList (needle : Value) : List Value → Res Bool
  | [] => .ok false
  | x :: rest =>
    match VM.equal x needle with
    | .error e => .error e
    | .ok true => .ok true
    | .ok false => isInList needle rest

/-- part_003 `in` (named `isIn` here; `in` is reserved in Lean): a nil
container is false before anything else; arrays scan with `equal`; maps
panic on a nil needle and otherwise test key presence; kinds without a case
panic.  Struct and pointer containers are outside the value model. -/
def isIn (needle array : Value) : Res Bool :=
  match array with
  | .nil => .ok false
  | .array xs => isInList needle xs
  | .map ps =>
    match needle with
    | .nil => .error "cannot use nil as index to map"
    | k => .ok (lookupV k ps).isSome
  | _ => .error "operator \"in\" not defined"

/-- Modelled from the spec: the arithmetic promotion of the missing VM
dispatch loop (spec section 4.5) — if either operand is float both are
coerced to float via the vm package's `toFloat64`, otherwise both are used
as integers. -/
def promote (a b : Value) : Res (Value × Value) :=
  match a, b with
  | .float _, _ | _, .float _ =>
    (match toFloat64 a with
     | .error e => .error e
     | .ok x =>
       match toFloat64 b with
       | .error e => .error e
       | .ok y => .ok (.float x, .float y))
  | _, _ => .ok (a, b)

/-- Modelled from the spec: the instruction set fragment needed here, with
the byte encoding abstracted to a structured list — `OpPush` carries the
pushed integer, `OpConst` its constant (the pool is inlined). -/
inductive Instr where
  | push (n : ℤ)
  | const (v : Value)
  | opTrue
  | opFalse
  | opNil
  | opAdd
  | opSub
  | opMul
  | opDiv
  | opMod
  | opExp
  | opRange

/-- Modelled from the spec: the missing compiler's lowering (spec section
4.4) for the straight-line fragment without jumps.  Literal lowering follows
the compiler tests (src/unnamed/part_000): integer-valued literals in
[0, 65535] emit `OpPush`, larger integer-valued literals an int64 constant,
non-integer literals a float64 constant. -/
def compileNode : Node → Res (List Instr)
  | .number q =>
    if q.den = 1 then
      if 0 ≤ q.num ∧ q.num ≤ 65535 then .ok [.push q.num]
      else .ok [.const (.int q.num)]
    else .ok [.const (.float (.finite q))]
  | .bool true => .ok [.opTrue]
  | .bool false => .ok [.opFalse]
  | .nil => .ok [.opNil]
  | .text s => .ok [.const (.str s)]
  | .binary op l r =>
    match compileNode l with
    | .error e => .error e
    | .ok cl =>
      match compileNode r with
      | .error e => .error e
      | .ok cr =>
        match (match op with
               | "+" => some Instr.opAdd
               | "-" => some Instr.opSub
               | "*" => some Instr.opMul
               | "/" => some Instr.opDiv
               | "%" => some Instr.opMod
               | "**" => some Instr.opExp
               | ".." => some Instr.opRange
               | _ => none) with
        | some i => .ok (cl ++ cr ++ [i])
        | none => .error "compile: operator outside the modelled fragment"
  | _ => .error "compile: node outside the modelled fragment"

/-- Binary arithmetic dispatch: promote, then the vm helper. -/
def arith (f : Value → Value → Res Value) (a b : Value) : Res Value :=
  match promote a b with
  | .error e => .error e
  | .ok (x, y) => f x y

/-- Modelled from the spec: one step of the missing VM loop (spec section
4.5).  Binary opcodes pop the right operand first. -/
def execInstr (i : Instr) (st : List Value) : Res (List Value) :=
  match i with
  | .push n => .ok (.int n :: st)
  | .const v => .ok (v :: st)
  | .opTrue => .ok (.bool true :: st)
  | .opFalse => .ok (.bool false :: st)
  | .opNil => .ok (.nil :: st)
  | op =>
    match st with
    | b :: a :: rest =>
      let r : Res Value :=
        match op with
        | .opAdd => arith VM.add a b
        | .opSub => arith VM.subtract a b
        | .opMul => arith VM.multiply a b
        | .opDiv => arith VM.divide a b
        | .opMod => arith VM.modulo a b
        | .opExp => exponent a b
        | .opRange => makeRange a b
        | _ => .error "unreachable"
      match r with
      | .error e => .error e
      | .ok v => .ok (v :: rest)
    | _ => .error "stack underflow"

def exec : List Instr → List Value → Res (List Value)
  | [], st => .ok st
  | i :: rest, st =>
    match execInstr i st with
    | .error e => .error e
    | .ok st' => exec rest st'

/-- Modelled from the spec: running a program from an empty stack; the
remaining element is the result, an empty stack yields nil. -/
def runProgram (prog : List Instr) : Res Value :=
  match exec prog [] with
  | .error e => .error e
  | .ok (v :: _) => .ok v
  | .ok [] => .ok .nil

/-- Compile-then-run: the VM evaluation path for an expression. -/
def runVM (n : Node) : Res Value :=
  match compileNode n with
  | .error e => .error e
  | .ok p => runProgram p

end VM

/-- The spec's notion of value equality modulo numeric promotion (spec
section 8): numeric values are equated by numeric value after promotion to
float; any other values structurally. -/
def eqModuloPromotion (a b : Value) : Bool :=
  match a, b with
  | .int x, .int y => x == y
  | .int x, .float y => GoFloat.beq (.ofInt x) y
  | .float x, .int y => GoFloat.beq x (.ofInt y)
  | .float x, .float y => GoFloat.beq x y
  | _, _ => Value.beq a b

/-- Helper: a `reflect.Value` box stored as data never compares DeepEqual to
anything — its dynamic type is `reflect.Value` itself. -/
theorem beq_rv_left (b : Option Value) (c : Value) : Value.beq (.rv b) c = false := by
  cases c <;> rfl

/-- Helper: the array scan of the tree evaluator's `contains` over boxed
elements (the only elements an array literal stores) never finds the needle:
`equal` sees an interface-kind element, falls to `DeepEqual` of the box
against the needle's content, and that is false for every needle. -/
theorem containsList_boxed (nv : Value) (rvs : List (Option Value)) :
    Expr.containsList (some nv) (rvs.map Value.rv) = .ok false := by
  induction rvs with
  | nil => rfl
  | cons b rest ih =>
    have h : Expr.equal (some (.ifc (.rv b))) (some nv) = .ok false := by
      cases nv <;>
        simp [Expr.equal, Expr.isNumber, Expr.canBeNumber, Expr.deepEqualIface,
          Expr.interfaceOf, beq_rv_left]
    simp [Expr.containsList, h, ih]

/-- Claim C1: for every well-typed expression and environment, the tree-walk
result and the VM result agree modulo numeric promotion.  The code violates
this: `3 / 2` is well-typed, the tree-walk evaluator casts both literals to
float64 and returns 1.5, while the compiler pushes 3 and 2 as integers and
the vm package's `divide` performs Go integer division, returning 1 — and
1.5 and 1 differ even modulo numeric promotion. -/
theorem claim_C1_divergence :
    Expr.typeNode (.binary "/" (.number 3) (.number 2)) [] = .ok (some .number)
    ∧ Expr.Run (.binary "/" (.number 3) (.number 2)) .nil = .ok (.float (.finite (3/2)))
    ∧ VM.runVM (.binary "/" (.number 3) (.number 2)) = .ok (.int 1)
    ∧ eqModuloPromotion (.float (.finite (3/2))) (.int 1) = false := by
  refine ⟨by rfl, by rfl, by rfl, ?_⟩
  norm_num [eqModuloPromotion, GoFloat.beq, GoFloat.ofInt]

/-- Claim C2: `and` does not evaluate its right operand when the left is
false, `or` does not evaluate its right operand when the left is true, and
in particular `false and (1/0 == 0)` yields false with no division-by-zero
error.  The first two parts hold for an arbitrary right operand `b`, which
is never evaluated. -/
theorem claim_C2_short_circuit (a b : Node) (env : Value) :
    (Expr.evalNode a env = .ok (some (.bool false)) →
      Expr.evalNode (.binary "and" a b) env = .ok (some (.bool false)))
    ∧ (Expr.evalNode a env = .ok (some (.bool true)) →
      Expr.evalNode (.binary "or" a b) env = .ok (some (.bool true)))
    ∧ Expr.Run (.binary "and" (.bool false)
        (.binary "==" (.binary "/" (.number 1) (.number 0)) (.number 0))) env
        = .ok (.bool false) := by
  refine ⟨fun h => ?_, fun h => ?_, by rfl⟩ <;>
    simp [Expr.evalNode, h, Expr.toBool]

/-- Witness for C2 at a concrete input: the left operand evaluates to false
and the conjunction short-circuits to false (the right operand `1/0 == 0`
would raise if evaluated). -/
theorem claim_C2_witness :
    Expr.evalNode (.binary "and" (.bool false)
        (.binary "==" (.binary "/" (.number 1) (.number 0)) (.number 0))) .nil
      = .ok (some (.bool false)) :=
  (claim_C2_short_circuit (.bool false)
    (.binary "==" (.binary "/" (.number 1) (.number 0)) (.number 0)) .nil).1 (by rfl)

/-- Claim C3: division by zero is RuntimeError("division by zero") on both
paths, including float operands.  The tree-walk evaluator checks the zero
denominator and raises exactly this error; but the vm package's `divide` has
no zero check: with float operands (also after the dispatch promotion of a
mixed float/int pair) a zero denominator silently yields +Inf, and with
integer operands it is the Go runtime panic, whose message is not
"division by zero". -/
theorem claim_C3_division_by_zero :
    Expr.Run (.binary "/" (.number 1) (.number 0)) .nil = .error "division by zero"
    ∧ VM.divide (.float (.finite 1)) (.float (.finite 0)) = .ok (.float .inf)
    ∧ VM.arith VM.divide (.float (.finite 1)) (.int 0) = .ok (.float .inf)
    ∧ VM.divide (.int 1) (.int 0) = .error "runtime error: integer divide by zero" := by
  exact ⟨by rfl, by rfl, by rfl, by rfl⟩

/-- Claim C4: `%` requires integer operands on both paths.  The vm package's
`modulo` indeed errors on a float operand (also after promotion of a mixed
pair), but the tree-walk evaluator instead truncates: `5.5 % 2` casts 5.5 to
the int64 5 and returns float64(5 % 2) = 1 with no error. -/
theorem claim_C4_modulo_integer_only :
    Expr.Run (.binary "%" (.number (Rat.mk' 11 2)) (.number 2)) .nil = .ok (.float (.ofInt 1))
    ∧ VM.modulo (.float (.finite (Rat.mk' 11 2))) (.float (.finite 2))
        = .error "invalid operation: % on non-integer"
    ∧ VM.arith VM.modulo (.float (.finite (Rat.mk' 11 2))) (.int 2)
        = .error "invalid operation: % on non-integer"
    ∧ VM.modulo (.int 5) (.int 2) = .ok (.int 1) := by
  exact ⟨by rfl, by rfl, by rfl, by rfl⟩

/-- Claim C5: `a..b` yields [a, …, b] when the length is at most 10^6 and
errors beyond that, on both paths.  The tree-walk evaluator implements the
cap (`1..5` yields [1,2,3,4,5]; `1..1000001` is an error), but the vm
package's `makeRange` has no cap at all: it builds the 1000001-element array
for `1..1000001` without error. -/
theorem claim_C5_range_cap :
    Expr.Run (.binary ".." (.number 1) (.number 5)) .nil
        = .ok (.array [.float (.ofInt 1), .float (.ofInt 2), .float (.ofInt 3),
            .float (.ofInt 4), .float (.ofInt 5)])
    ∧ Expr.Run (.binary ".." (.number 1) (.number 1000001)) .nil
        = .error "range 1..1000001 exceeded max size of 1e6"
    ∧ VM.makeRange (.int 1) (.int 5)
        = .ok (.array [.int 1, .int 2, .int 3, .int 4, .int 5])
    ∧ VM.makeRange (.int 1) (.int 1000001)
        = .ok (.array ((List.range 1000001).map (fun i => .int (1 + (i : ℤ))))) := by
  exact ⟨by rfl, by rfl, by rfl, by rfl⟩

/-- Claim C6: `k in m` should be true exactly when `m[k]` is defined.  The
code violates it in both directions on the tree-walk path.  For an
environment-supplied map `{m: {"a": 1}}`, the container fetched for
`"a" in m` has interface kind and `contains` has no Interface case, so the
membership test is the error `operator "in" not defined` — while `m["a"]`
succeeds and returns the stored 1 (extract does unwrap interface kind and
uses the key's content).  And for a map literal, the stored keys are
`reflect.Value` boxes while `contains` looks up the re-wrapped boxed needle
(never equal) and `extract` looks up the plain content key (never equal
either), so `"a" in {"a": 1}` is false and `{"a": 1}["a"]` is nil, not the
stored entry. -/
theorem claim_C6_in_vs_index :
    Expr.Run (.binary "in" (.text "a") (.name "m"))
        (.map [(.str "m", .map [(.str "a", .float (.finite 1))])])
        = .error "operator \"in\" not defined"
    ∧ Expr.Run (.index (.name "m") (.text "a"))
        (.map [(.str "m", .map [(.str "a", .float (.finite 1))])])
        = .ok (.float (.finite 1))
    ∧ Expr.Run (.binary "in" (.text "a") (.mapLit [(.text "a", .number 1)])) .nil
        = .ok (.bool false)
    ∧ Expr.Run (.index (.mapLit [(.text "a", .number 1)]) (.text "a")) .nil = .ok .nil := by
  exact ⟨by rfl, by rfl, by rfl, by rfl⟩

/-- Claim C7: `user.Group in ["vip", "admin"]` with `{user: {Group: "vip"}}`
should be true, and array-literal membership should hold exactly when the
needle equals an element.  The code violates this: `arrayNode.Eval` appends
the `reflect.Value` boxes into the literal, so the scan compares
`DeepEqual(box, needle-content)`, which is false for every needle — the
scenario evaluates to false, and even `"vip" in ["vip"]` is false. -/
theorem claim_C7_array_membership_broken :
    (∀ (nv : Value) (rvs : List (Option Value)),
      Expr.containsList (some nv) (rvs.map Value.rv) = .ok false)
    ∧ Expr.Run (.binary "in" (.property (.name "user") "Group")
        (.array [.text "vip", .text "admin"]))
        (.map [(.str "user", .map [(.str "Group", .str "vip")])]) = .ok (.bool false)
    ∧ Expr.Run (.binary "in" (.text "vip") (.array [.text "vip"])) .nil = .ok (.bool false) := by
  exact ⟨containsList_boxed, by rfl, by rfl⟩

/-- Counterexample for C8: evaluating `missing.Field` against the empty map
environment does not produce the error "undefined: missing" — name lookup on
a map environment succeeds (with the invalid value) for an absent name. -/
theorem claim_C8_counterexample :
    Expr.Run (.property (.name "missing") "Field") (.map []) ≠ .error "undefined: missing" := by
  have h : Expr.Run (.property (.name "missing") "Field") (.map [])
      = .error "missing is nil" := by rfl
  rw [h]
  intro hh
  exact absurd (Except.error.inj hh) (by decide)

/-- Claim C8 as amended: `missing.Field` against the empty map environment
fails with RuntimeError("missing is nil") — the map lookup for the absent
name yields the invalid (nil) value without error and the property access
then reports the nil base; the error "undefined: missing" arises when the
environment does not support extraction at all, e.g. a nil environment. -/
theorem claim_C8_missing_field :
    Expr.Run (.property (.name "missing") "Field") (.map []) = .error "missing is nil"
    ∧ Expr.Run (.property (.name "missing") "Field") .nil = .error "undefined: missing" := by
  exact ⟨by rfl, by rfl⟩

/-- Claim C9: equality is typed, numeric tags cross-compare, nil equals only
nil, and no error is raised for these combinations.  The code violates the
nil clause: the tree-walk `equal` calls `Type()` on the operands, which
panics on the invalid nil value — so even `nil == nil` is a runtime error —
and the VM's `equal` type-asserts its right operand, panicking when the
right operand is nil (or a differently-tagged number) while a nil left
operand works.  Tree-walk float/int cross-comparison does work. -/
theorem claim_C9_nil_equality :
    Expr.Run (.binary "==" .nil .nil) .nil
        = .error "reflect: call of reflect.Value.Type on zero Value"
    ∧ VM.equal .nil .nil = .ok true
    ∧ VM.equal (.int 1) .nil = .error "interface conversion: interface is not int"
    ∧ VM.equal (.int 1) (.float (.finite 1))
        = .error "interface conversion: interface is not int"
    ∧ Expr.equal (some (.float (.finite 1))) (some (.int 1)) = .ok true := by
  exact ⟨by rfl, by rfl, by rfl, by rfl, by rfl⟩

/-- Counterexample for C10: on the tree-walk path, `1 in nil` with the nil
literal does not return false — `contains` calls `Interface()` on the
invalid container value, which panics, so the evaluation is an error. -/
theorem claim_C10_counterexample :
    Expr.Run (.binary "in" (.number 1) .nil) .nil
        = .error "reflect: call of reflect.Value.Interface on zero Value"
    ∧ Expr.Run (.binary "in" (.number 1) .nil) .nil ≠ .ok (.bool false) := by
  refine ⟨by rfl, ?_⟩
  have h : Expr.Run (.binary "in" (.number 1) .nil) .nil
      = .error "reflect: call of reflect.Value.Interface on zero Value" := by rfl
  rw [h]
  exact fun hh => Except.noConfusion hh

/-- Claim C10 as amended: `x in c` for a nil container returns false without
error on the VM path for every needle, and on the tree-walk path whenever
the container evaluates to a valid nil value (e.g. a nil fetched from the
environment); the nil literal instead produces the invalid value, on which
the tree-walk `contains` panics. -/
theorem claim_C10_nil_container :
    (∀ x : Value, VM.isIn x .nil = .ok false)
    ∧ (∀ x : Expr.RV, Expr.contains x (some .nil) = .ok false) := by
  exact ⟨fun _ => rfl, fun _ => rfl⟩

